import Mathlib

/-!
Verification of the edge caching/coalescing gateway
(`src/edge-functions/src/index.ts` of magicsell-v2).

The worker's pure logic is embedded shallowly:

* request bodies, cache entries and responses become Lean structures;
* `JSON.stringify` of the fixed-shape key objects becomes an explicit
  canonical serializer (undefined-valued fields omitted, insertion order
  kept);
* `crypto.subtle.digest("SHA-256", ...)` becomes an executable SHA-256
  over byte lists (`Nat` arithmetic mod 2^32);
* the fallible/effectful boundaries (KV reads, origin fetches) become
  explicit outcome parameters, and each handler returns its response
  together with a record of the effects it performed;
* the in-flight coalescing map together with the cooperatively
  interleaved callers becomes a small-step transition system over which
  the coalescing guarantees are proved for every interleaving.
-/

/-! ### JavaScript-style helpers -/

/-- Truthiness of an optional string field: JS treats `undefined`, `null`
and the empty string as falsy. -/
def truthyOptStr : Option String → Bool
  | none => false
  | some s => !(s == "")

/-- The JS `a || b` idiom on an optional string (used for
`originResponse.headers.get("etag") || generateEtag(data)`). -/
def jsOrStr (a : Option String) (b : String) : String :=
  match a with
  | none => b
  | some s => if s == "" then b else s

/-- Does `hay` start with `needle`? (plain list matching). -/
def leadsWith : List Char → List Char → Bool
  | [], _ => true
  | _ :: _, [] => false
  | c :: cs, d :: ds => c == d && leadsWith cs ds

/-- Does `hay` contain `needle` as a contiguous run?  Models the JS
`String.prototype.includes` test used on error messages. -/
def hasRun (needle : List Char) : List Char → Bool
  | [] => leadsWith needle []
  | d :: ds => leadsWith needle (d :: ds) || hasRun needle ds

/-- Models `error.message.includes("abort")`. -/
def msgIncludesAbort (msg : String) : Bool :=
  hasRun "abort".data msg.data

/-! ### JSON values and canonical serialization -/

/-- A JS number as it can appear in the cache-key objects: an integer or
`NaN` (the possible result of `parseInt`); `JSON.stringify` renders `NaN`
as `null`. -/
inductive JNum
  | int (z : Int)
  | nan
  deriving DecidableEq

/-- JSON values (payloads passed through from the origin). -/
inductive Json
  | null
  | jbool (b : Bool)
  | jnum (z : Int)
  | jstr (s : String)
  | jarr (elems : List Json)
  | jobj (fields : List (String × Json))

/-- One character of a JSON string literal, escaped as
`JSON.stringify` escapes it. -/
def jsonEscapeChar (c : Char) : String :=
  if c = '"' then "\\\""
  else if c = '\\' then "\\\\"
  else if c = '\n' then "\\n"
  else if c = '\r' then "\\r"
  else if c = '\t' then "\\t"
  else String.singleton c

/-- A JSON string literal. -/
def jstrLit (s : String) : String :=
  "\"" ++ String.join (s.data.map jsonEscapeChar) ++ "\""

/-- Serialization of a `JNum` (stringify turns `NaN` into `null`). -/
def JNum.render : JNum → String
  | .int z => toString z
  | .nan => "null"

mutual

/-- Models `JSON.stringify` on a JSON value. -/
def Json.stringify : Json → String
  | .null => "null"
  | .jbool b => cond b "true" "false"
  | .jnum z => toString z
  | .jstr s => jstrLit s
  | .jarr elems => "[" ++ Json.stringifyList elems ++ "]"
  | .jobj fields => "\x7b" ++ Json.stringifyFields fields ++ "\x7d"

/-- Comma-separated serialization of array elements. -/
def Json.stringifyList : List Json → String
  | [] => ""
  | [v] => Json.stringify v
  | v :: v' :: rest => Json.stringify v ++ "," ++ Json.stringifyList (v' :: rest)

/-- Comma-separated serialization of object fields, in insertion order. -/
def Json.stringifyFields : List (String × Json) → String
  | [] => ""
  | [(k, v)] => jstrLit k ++ ":" ++ Json.stringify v
  | (k, v) :: f :: rest =>
      jstrLit k ++ ":" ++ Json.stringify v ++ "," ++ Json.stringifyFields (f :: rest)

end

/-- One rendered field `"name":value` of a key object. -/
def jfield (name val : String) : String :=
  jstrLit name ++ ":" ++ val

/-- A rendered JSON object given optionally-present rendered fields;
absent (`undefined`-valued) fields are omitted, as `JSON.stringify`
omits them. -/
def jobjOf (fields : List (Option String)) : String :=
  "\x7b" ++ String.intercalate "," (fields.filterMap id) ++ "\x7d"

/-- A rendered JSON array of rendered elements. -/
def jarrOf (elems : List String) : String :=
  "[" ++ String.intercalate "," elems ++ "]"

/-! ### UTF-8 (the `TextEncoder` step before hashing) -/

/-- UTF-8 bytes of one character. -/
def utf8Char (c : Char) : List Nat :=
  let n := c.toNat
  if n < 0x80 then [n]
  else if n < 0x800 then
    [0xC0 ||| (n >>> 6), 0x80 ||| (n &&& 0x3F)]
  else if n < 0x10000 then
    [0xE0 ||| (n >>> 12), 0x80 ||| ((n >>> 6) &&& 0x3F), 0x80 ||| (n &&& 0x3F)]
  else
    [0xF0 ||| (n >>> 18), 0x80 ||| ((n >>> 12) &&& 0x3F),
     0x80 ||| ((n >>> 6) &&& 0x3F), 0x80 ||| (n &&& 0x3F)]

/-- UTF-8 encoding of a string, as `new TextEncoder().encode` produces. -/
def utf8Bytes (s : String) : List Nat :=
  (s.data.map utf8Char).flatten

/-! ### SHA-256 (`crypto.subtle.digest("SHA-256", data)`) -/

namespace SHA256

/-- Truncation to a 32-bit word. -/
def w32 (n : Nat) : Nat := n % 4294967296

/-- Rotation of a word to the right by `k` bits. -/
def rotr (k n : Nat) : Nat := w32 ((n >>> k) ||| (n <<< (32 - k)))

/-- Big sigma-0. -/
def bsig0 (x : Nat) : Nat := (rotr 2 x) ^^^ (rotr 13 x) ^^^ (rotr 22 x)

/-- Big sigma-1. -/
def bsig1 (x : Nat) : Nat := (rotr 6 x) ^^^ (rotr 11 x) ^^^ (rotr 25 x)

/-- Small sigma-0. -/
def ssig0 (x : Nat) : Nat := (rotr 7 x) ^^^ (rotr 18 x) ^^^ (x >>> 3)

/-- Small sigma-1. -/
def ssig1 (x : Nat) : Nat := (rotr 17 x) ^^^ (rotr 19 x) ^^^ (x >>> 10)

/-- Choice function. -/
def ch (x y z : Nat) : Nat := (x &&& y) ^^^ ((x ^^^ 0xFFFFFFFF) &&& z)

/-- Majority function. -/
def maj (x y z : Nat) : Nat := (x &&& y) ^^^ (x &&& z) ^^^ (y &&& z)

/-- The 64 round constants of the compression function, in decimal. -/
def K : List Nat :=
  [1116352408, 1899447441, 3049323471, 3921009573, 961987163, 1508970993,
   2453635748, 2870763221, 3624381080, 310598401, 607225278, 1426881987,
   1925078388, 2162078206, 2614888103, 3248222580, 3835390401, 4022224774,
   264347078, 604807628, 770255983, 1249150122, 1555081692, 1996064986,
   2554220882, 2821834349, 2952996808, 3210313671, 3336571891, 3584528711,
   113926993, 338241895, 666307205, 773529912, 1294757372, 1396182291,
   1695183700, 1986661051, 2177026350, 2456956037, 2730485921, 2820302411,
   3259730800, 3345764771, 3516065817, 3600352804, 4094571909, 275423344,
   430227734, 506948616, 659060556, 883997877, 958139571, 1322822218,
   1537002063, 1747873779, 1955562222, 2024104815, 2227730452, 2361852424,
   2428436474, 2756734187, 3204031479, 3329325298]

/-- Starting hash registers, in decimal. -/
def initH : List Nat :=
  [1779033703, 3144134277, 1013904242, 2773480762, 1359893119,
   2600822924, 528734635, 1541459225]

/-- Message padding: append `0x80`, zero bytes, and the 64-bit big-endian
bit length, reaching a multiple of 64 bytes. -/
def pad (msg : List Nat) : List Nat :=
  let bitLen := 8 * msg.length
  let zeros := (55 + 64 - (msg.length % 64)) % 64
  msg ++ [0x80] ++ List.replicate zeros 0 ++
    (List.range 8).map (fun i => (bitLen >>> (8 * (7 - i))) % 256)

/-- Split a list into runs of 64 elements. -/
def blocks64 : List Nat → List (List Nat)
  | [] => []
  | b :: rest => (b :: rest).take 64 :: blocks64 ((b :: rest).drop 64)
  termination_by l => l.length
  decreasing_by simp [List.length_drop]; omega

/-- Big-endian 32-bit words of a block of bytes. -/
def toWords : List Nat → List Nat
  | b0 :: b1 :: b2 :: b3 :: rest =>
      (b0 <<< 24 ||| b1 <<< 16 ||| b2 <<< 8 ||| b3) :: toWords rest
  | _ => []

/-- Message schedule entry `W t` for a 16-word block. -/
def schedW (block : List Nat) : Nat → Nat
  | t =>
    if t < 16 then block.getD t 0
    else
      w32 (ssig1 (schedW block (t - 2)) + schedW block (t - 7) +
           ssig0 (schedW block (t - 15)) + schedW block (t - 16))
  termination_by t => t
  decreasing_by all_goals omega

/-- One compression round. -/
def round (block : List Nat) (regs : List Nat) (t : Nat) : List Nat :=
  match regs with
  | [a, b, c, d, e, f, g, h] =>
    let t1 := w32 (h + bsig1 e + ch e f g + K.getD t 0 + schedW block t)
    let t2 := w32 (bsig0 a + maj a b c)
    [w32 (t1 + t2), a, b, c, w32 (d + t1), e, f, g]
  | l => l

/-- Process one 64-byte block. -/
def compressBlock (hs : List Nat) (bytes : List Nat) : List Nat :=
  let block := toWords bytes
  let regs := (List.range 64).foldl (round block) hs
  (hs.zip regs).map (fun p => w32 (p.1 + p.2))

/-- The SHA-256 digest bytes of a byte message. -/
def digest (msg : List Nat) : List Nat :=
  let hs := (blocks64 (pad msg)).foldl compressBlock initH
  hs.flatMap (fun wrd => [(wrd >>> 24) % 256, (wrd >>> 16) % 256, (wrd >>> 8) % 256, wrd % 256])

/-- One lowercase hex digit. -/
def hexDigit (n : Nat) : Char :=
  if n < 10 then Char.ofNat (48 + n) else Char.ofNat (87 + n)

/-- Two-digit lowercase hex of a byte (`b.toString(16).padStart(2, "0")`). -/
def hexByte (b : Nat) : String :=
  String.mk [hexDigit ((b / 16) % 16), hexDigit (b % 16)]

end SHA256

/-- Lowercase hex SHA-256 of a string's UTF-8 bytes, as the worker's
key-generation helpers compute it. -/
def sha256hex (s : String) : String :=
  String.join ((SHA256.digest (utf8Bytes s)).map SHA256.hexByte)

/-! ### JS array sorting

JS `Array.prototype.sort` is stable. With no comparator it sorts by the
string form of each element (relevant for `products?.sort()` on a number
array); with a numeric comparator `(a, b) => a.x - b.x` it sorts
ascending by `x`. Both are modelled with `List.insertionSort`, which
inserts earlier elements in front of later ones exactly when the
relation holds, so a non-strict relation reproduces the stable order. -/

/-- Default JS sort of a string array (`excludeProductIds?.sort()`). -/
def jsSortStrings (l : List String) : List String :=
  List.insertionSort (fun a b => a ≤ b) l

instance intStrLeDecidable :
    DecidableRel (fun a b : Int => toString a ≤ toString b) :=
  fun a b => inferInstanceAs (Decidable ((toString a : String) ≤ toString b))

/-- Default JS sort of a number array (`products?.sort()`): elements are
compared via their decimal string forms. -/
def jsSortNumsDefault (l : List Int) : List Int :=
  List.insertionSort (fun a b : Int => toString a ≤ toString b) l

/-! ### Request bodies and cache-key generation -/

/-- The parsed product-recommendation request
(`ProductRequestBody` in the source). -/
structure ProductRequestBody where
  shop : String
  productId : Option String
  productHandle : Option String
  type : String
  layout : Option String
  limit : Option JNum
  excludeProductIds : Option (List String)
  cartToken : Option String
  deriving DecidableEq

/-- The parsed cart-recommendation request (`CartRequestBody`). -/
structure CartRequestBody where
  shop : String
  type : String
  products : Option (List Int)
  layout : Option String
  limit : Option JNum
  cartToken : Option String
  deriving DecidableEq

/-- One line item of a storefront cart. Only `variant_id`, `quantity`
and `properties` take part in the cache key; `product_id` and `price`
stand for the remaining per-item cart fields. -/
structure SFCartItem where
  variant_id : Int
  quantity : Int
  properties : Option Json
  product_id : Int
  price : Int

/-- A storefront cart. Only `token`, `total_price`, `item_count` and
`items` take part in the cache key; `currency` stands for the remaining
cart fields. -/
structure SFCart where
  token : Option String
  total_price : Option Int
  item_count : Option Int
  items : Option (List SFCartItem)
  currency : Option String

/-- The parsed storefront request (`StorefrontRequestBody`). -/
structure StorefrontRequestBody where
  cart : SFCart
  shop : String
  actionType : Option String
  variantId : Option String
  «attribute» : Option String

/-- One item of an upsell request. -/
structure UpsellItem where
  productId : String
  variantId : Option String
  deriving DecidableEq

/-- The parsed upsell request (`UpsellRequestBody`). -/
structure UpsellRequestBody where
  shop : String
  type : String
  items : Option (List UpsellItem)
  productId : Option String
  variantId : Option String
  deriving DecidableEq

/-- Validation performed by `parseProductQueryParams`: `shop` and `type`
truthy, and at least one of `productId` / `productHandle` present. -/
def ProductRequestBody.validB (b : ProductRequestBody) : Bool :=
  !(b.shop == "") && !(b.type == "") &&
    (truthyOptStr b.productId || truthyOptStr b.productHandle)

/-- The serialized key object of `generateProductCacheKey`:
`JSON.stringify` of `shop`, `productId`, `productHandle`, `type`,
`layout`, `limit` and the sorted `excludeProductIds`, with
`undefined`-valued fields omitted. -/
def productKeyData (b : ProductRequestBody) : String :=
  jobjOf
    [some (jfield "shop" (jstrLit b.shop)),
     b.productId.map (fun v => jfield "productId" (jstrLit v)),
     b.productHandle.map (fun v => jfield "productHandle" (jstrLit v)),
     some (jfield "type" (jstrLit b.type)),
     b.layout.map (fun v => jfield "layout" (jstrLit v)),
     b.limit.map (fun v => jfield "limit" v.render),
     b.excludeProductIds.map
       (fun l => jfield "excludeProductIds" (jarrOf ((jsSortStrings l).map jstrLit)))]

/-- `generateProductCacheKey`: SHA-256 of the canonical key object,
under the `rec_product_` namespace. `cartToken` is not part of the key
object. -/
def generateProductCacheKey (b : ProductRequestBody) : String :=
  "rec_product_" ++ sha256hex (productKeyData b)

/-- The serialized key object of `generateCartCacheKey`: `shop`, `type`,
the default-sorted `products`, `layout`, `limit`. -/
def cartKeyData (b : CartRequestBody) : String :=
  jobjOf
    [some (jfield "shop" (jstrLit b.shop)),
     some (jfield "type" (jstrLit b.type)),
     b.products.map
       (fun l => jfield "products" (jarrOf ((jsSortNumsDefault l).map toString))),
     b.layout.map (fun v => jfield "layout" (jstrLit v)),
     b.limit.map (fun v => jfield "limit" v.render)]

/-- `generateCartCacheKey`: SHA-256 of the canonical key object, under
the `rec_cart_` namespace. -/
def generateCartCacheKey (b : CartRequestBody) : String :=
  "rec_cart_" ++ sha256hex (cartKeyData b)

/-- The projection of one cart line item that enters the storefront key:
`{ id: item.variant_id, quantity: item.quantity, properties: item.properties }`. -/
structure SFKeyItem where
  id : Int
  quantity : Int
  properties : Option Json

/-- The key projection of a line item. -/
def SFCartItem.keyItem (i : SFCartItem) : SFKeyItem :=
  ⟨i.variant_id, i.quantity, i.properties⟩

/-- The storefront key's item list: projected items sorted by the
numeric comparator `(a, b) => a.id - b.id` (stable, ascending by `id`). -/
def sfSortedKeyItems (items : List SFCartItem) : List SFKeyItem :=
  List.insertionSort (fun a b : SFKeyItem => a.id ≤ b.id) (items.map SFCartItem.keyItem)

/-- Serialization of one projected key item. -/
def SFKeyItem.render (i : SFKeyItem) : String :=
  jobjOf
    [some (jfield "id" (toString i.id)),
     some (jfield "quantity" (toString i.quantity)),
     i.properties.map (fun p => jfield "properties" p.stringify)]

/-- The serialized key object of `generateStorefrontCacheKey`: `shop`,
`cartToken`, `cartTotal`, `itemCount` and the simplified sorted item
array. `actionType`, `variantId`, `attribute` and the remaining cart
fields are not part of it. -/
def storefrontKeyData (b : StorefrontRequestBody) : String :=
  jobjOf
    [some (jfield "shop" (jstrLit b.shop)),
     b.cart.token.map (fun v => jfield "cartToken" (jstrLit v)),
     b.cart.total_price.map (fun v => jfield "cartTotal" (toString v)),
     b.cart.item_count.map (fun v => jfield "itemCount" (toString v)),
     b.cart.items.map
       (fun l => jfield "items" (jarrOf ((sfSortedKeyItems l).map SFKeyItem.render)))]

/-- `generateStorefrontCacheKey`: SHA-256 of the canonical key object,
under the `storefront_` namespace. -/
def generateStorefrontCacheKey (b : StorefrontRequestBody) : String :=
  "storefront_" ++ sha256hex (storefrontKeyData b)

/-! ### Cache entries and the KV read -/

/-- A stored cache entry (`CachedResponse` in the source):
`{ data, timestamp, etag? }`. -/
structure CachedResponse where
  data : Json
  timestamp : Int
  etag : Option String

/-- Outcome of the KV read: either the store answered (possibly with no
entry) or the read threw (store unreachable / corrupt payload). -/
inductive CacheReadOutcome
  | ok (v : Option CachedResponse)
  | err

/-- `getCachedResponse`: a KV read failure is caught and turned into
`null`, i.e. absorbed into the cache-miss case. -/
def getCachedResponse : CacheReadOutcome → Option CachedResponse
  | .ok v => v
  | .err => none

/-- `isStale`: a cached response is stale when it is older than one hour
(`Date.now() - cached.timestamp > 3600 * 1000`); the clock reading is
made explicit as `now`. -/
def isStale (now : Int) (cached : CachedResponse) : Bool :=
  decide (now - cached.timestamp > 3600000)

/-! ### Responses -/

/-- The `X-Cache` value of a success response. -/
inductive CacheTag
  | hit
  | miss
  | stale
  | bypass
  deriving DecidableEq

/-- Header value of a cache tag. -/
def CacheTag.str : CacheTag → String
  | .hit => "HIT"
  | .miss => "MISS"
  | .stale => "STALE"
  | .bypass => "BYPASS"

/-- An HTTP response: status, body text, ordered header list. -/
structure Resp where
  status : Nat
  body : String
  headers : List (String × String)

/-- Header lookup on a response. -/
def Resp.header (r : Resp) (name : String) : Option String :=
  r.headers.lookup name

/-- Models `response.clone()`: an equivalent copy of a settled response,
safe to hand to a second caller. -/
def cloneResp (r : Resp) : Resp := r

/-- The `Access-Control-Allow-Headers` value used on every
worker-generated response. -/
def allowHeadersValue : String :=
  "Content-Type, CF-Access-Client-Id, CF-Access-Client-Secret, cf-access-client-id, cf-access-client-secret, Accept, Accept-Language, Cache-Control, DNT, Origin, Pragma, Priority, Referer, Sec-CH-UA, Sec-CH-UA-Mobile, Sec-CH-UA-Platform, Sec-Fetch-Dest, Sec-Fetch-Mode, Sec-Fetch-Site, User-Agent"

/-- `createSuccessResponse`: 200 with the JSON payload, cache-status,
timing, CORS headers, and an `ETag` header when a truthy etag is at
hand. `responseTime` stands for `Date.now() - startTime`. -/
def createSuccessResponse (data : Json) (cacheStatus : CacheTag)
    (responseTime : Int) (etag : Option String) : Resp :=
  { status := 200
    body := data.stringify
    headers :=
      [("Content-Type", "application/json"),
       ("X-Cache", cacheStatus.str),
       ("X-Response-Time", toString responseTime ++ "ms"),
       ("X-Powered-By", "Cloudflare-Worker"),
       ("Cache-Control",
         if cacheStatus = .hit then "public, max-age=60" else "public, max-age=10"),
       ("Access-Control-Allow-Origin", "*"),
       ("Access-Control-Allow-Methods", "GET, POST, OPTIONS"),
       ("Access-Control-Allow-Headers", allowHeadersValue)] ++
      (match etag with
       | some e => if e == "" then [] else [("ETag", e)]
       | none => []) }

/-- `createErrorResponse`: `{ success: false, error: message }` with the
given status; timing and CORS headers but no `X-Cache` header. -/
def createErrorResponse (message : String) (status : Nat) (responseTime : Int) : Resp :=
  { status := status
    body := "\x7b\"success\":false,\"error\":" ++ jstrLit message ++ "\x7d"
    headers :=
      [("Content-Type", "application/json"),
       ("X-Response-Time", toString responseTime ++ "ms"),
       ("X-Powered-By", "Cloudflare-Worker"),
       ("Access-Control-Allow-Origin", "*"),
       ("Access-Control-Allow-Methods", "GET, POST, OPTIONS"),
       ("Access-Control-Allow-Headers", allowHeadersValue)] }

/-- The bare `Not found` response for unmatched paths. -/
def notFoundResponse : Resp :=
  { status := 404, body := "Not found", headers := [] }

/-! ### ETag generation -/

/-- Wrap an integer to signed 32-bit, as JS bitwise operators do. -/
def toInt32 (z : Int) : Int :=
  (z + 2147483648) % 4294967296 - 2147483648

/-- One step of `generateEtag`'s hash loop:
`hash = ((hash << 5) - hash) + char; hash = hash & hash`. -/
def etagStep (h : Int) (c : Nat) : Int :=
  toInt32 (toInt32 (h * 32) - h + c)

/-- The 32-bit string hash of `generateEtag`. -/
def etagHash (s : String) : Int :=
  s.data.foldl (fun h c => etagStep h c.toNat) 0

/-- A base-36 digit. -/
def base36Digit (n : Nat) : Char :=
  if n < 10 then Char.ofNat (48 + n) else Char.ofNat (87 + n)

/-- Digits accumulator for `Number.prototype.toString(36)`. -/
def base36Aux (n : Nat) (acc : List Char) : List Char :=
  if h : n = 0 then acc
  else base36Aux (n / 36) (base36Digit (n % 36) :: acc)
  termination_by n
  decreasing_by exact Nat.div_lt_self (Nat.pos_of_ne_zero h) (by norm_num)

/-- `Math.abs(hash).toString(36)` for a natural number. -/
def toBase36 (n : Nat) : String :=
  if n = 0 then "0" else String.mk (base36Aux n [])

/-- `generateEtag`: a quoted base-36 rendering of the 32-bit hash of the
serialized payload. -/
def generateEtag (data : Json) : String :=
  "\"" ++ toBase36 (etagHash data.stringify).natAbs ++ "\""

/-! ### Origin fetchers -/

/-- Outcome of the outbound origin call: an HTTP response (any status)
or a thrown error/abort with its message. -/
inductive OriginOutcome
  | resp (status : Nat) (data : Json) (etagHdr : Option String)
  | exn (message : String)

/-- `Response.ok`: status in `[200, 300)`. -/
def respOk (status : Nat) : Bool :=
  200 ≤ status && status < 300

/-- Does the origin outcome count as a failed origin call (non-success
response, network error, or timeout abort)? -/
def originFailed : OriginOutcome → Bool
  | .resp st _ _ => !respOk st
  | .exn _ => true

/-- Is the outcome a timeout abort (a thrown error whose message
contains `abort`)? -/
def originAborted : OriginOutcome → Bool
  | .resp _ _ _ => false
  | .exn message => msgIncludesAbort message

/-- A scheduled asynchronous KV write (`ctx.waitUntil(env.CACHE.put(...))`). -/
structure CacheWrite where
  key : String
  entry : CachedResponse
  ttlSeconds : Nat

/-- The query string parameters `fetchProductFromOrigin` forwards to the
origin: `shop` and `type` always, then each truthy optional field, with
`cartToken` among them. -/
def appendIfTruthy (name : String) (v : Option String) : List (String × String) :=
  match v with
  | some s => if s == "" then [] else [(name, s)]
  | none => []

/-- The origin query built in `fetchProductFromOrigin`. -/
def buildProductOriginQuery (b : ProductRequestBody) : List (String × String) :=
  [("shop", b.shop), ("type", b.type)] ++
    appendIfTruthy "productId" b.productId ++
    appendIfTruthy "productHandle" b.productHandle ++
    appendIfTruthy "layout" b.layout ++
    appendIfTruthy "cartToken" b.cartToken

/-- `fetchProductFromOrigin`: on a 2xx origin response, schedule a cache
write (1 hour TTL) and answer `MISS`; on a non-2xx response or a thrown
error, serve the stale fallback as a 200 `STALE` response when present,
else a 503 whose message distinguishes a timeout abort from other
failures (a thrown `Origin returned N` message never contains `abort`). -/
def fetchProductFromOrigin (b : ProductRequestBody) (cacheKey : String)
    (staleCache : Option CachedResponse) (outcome : OriginOutcome)
    (fetchNow responseTime : Int) : Resp × Option CacheWrite :=
  match outcome with
  | .resp status data etagHdr =>
    if respOk status then
      let etag := jsOrStr etagHdr (generateEtag data)
      (createSuccessResponse data .miss responseTime (some etag),
       some ⟨cacheKey, ⟨data, fetchNow, some etag⟩, 3600⟩)
    else
      match staleCache with
      | some c => (createSuccessResponse c.data .stale responseTime c.etag, none)
      | none =>
        (createErrorResponse
          (if msgIncludesAbort ("Origin returned " ++ toString status)
           then "Origin timeout (10s)" else "Origin unavailable") 503 responseTime,
         none)
  | .exn message =>
    match staleCache with
    | some c => (createSuccessResponse c.data .stale responseTime c.etag, none)
    | none =>
      (createErrorResponse
        (if msgIncludesAbort message then "Origin timeout (10s)" else "Origin unavailable")
        503 responseTime, none)

/-- `fetchCartFromOrigin`: same shape as the product fetcher
(1 hour TTL, 10 s timeout label). -/
def fetchCartFromOrigin (b : CartRequestBody) (cacheKey : String)
    (staleCache : Option CachedResponse) (outcome : OriginOutcome)
    (fetchNow responseTime : Int) : Resp × Option CacheWrite :=
  match outcome with
  | .resp status data etagHdr =>
    if respOk status then
      let etag := jsOrStr etagHdr (generateEtag data)
      (createSuccessResponse data .miss responseTime (some etag),
       some ⟨cacheKey, ⟨data, fetchNow, some etag⟩, 3600⟩)
    else
      match staleCache with
      | some c => (createSuccessResponse c.data .stale responseTime c.etag, none)
      | none =>
        (createErrorResponse
          (if msgIncludesAbort ("Origin returned " ++ toString status)
           then "Origin timeout (10s)" else "Origin unavailable") 503 responseTime,
         none)
  | .exn message =>
    match staleCache with
    | some c => (createSuccessResponse c.data .stale responseTime c.etag, none)
    | none =>
      (createErrorResponse
        (if msgIncludesAbort message then "Origin timeout (10s)" else "Origin unavailable")
        503 responseTime, none)

/-- `fetchStorefrontFromOrigin`: `cacheKey` is `null` for action
requests. On success the response is cached (5 minute TTL) only when a
truthy key was supplied and the body has no truthy `actionType`, and it
is tagged `MISS` under a truthy key, `BYPASS` otherwise; failures
degrade to the stale fallback or a 503 with the 15 s timeout label. -/
def fetchStorefrontFromOrigin (b : StorefrontRequestBody) (cacheKey : Option String)
    (staleCache : Option CachedResponse) (outcome : OriginOutcome)
    (fetchNow responseTime : Int) : Resp × Option CacheWrite :=
  match outcome with
  | .resp status data etagHdr =>
    if respOk status then
      let etag := jsOrStr etagHdr (generateEtag data)
      ((createSuccessResponse data
          (if truthyOptStr cacheKey then .miss else .bypass) responseTime (some etag)),
       if truthyOptStr cacheKey && !truthyOptStr b.actionType then
         some ⟨cacheKey.getD "", ⟨data, fetchNow, some etag⟩, 300⟩
       else none)
    else
      match staleCache with
      | some c => (createSuccessResponse c.data .stale responseTime c.etag, none)
      | none =>
        (createErrorResponse
          (if msgIncludesAbort ("Origin returned " ++ toString status)
           then "Origin timeout (15s)" else "Origin unavailable") 503 responseTime,
         none)
  | .exn message =>
    match staleCache with
    | some c => (createSuccessResponse c.data .stale responseTime c.etag, none)
    | none =>
      (createErrorResponse
        (if msgIncludesAbort message then "Origin timeout (15s)" else "Origin unavailable")
        503 responseTime, none)

/-- `fetchUpsellFromOrigin`: same shape as the product fetcher with a
30 minute TTL. -/
def fetchUpsellFromOrigin (b : UpsellRequestBody) (cacheKey : String)
    (staleCache : Option CachedResponse) (outcome : OriginOutcome)
    (fetchNow responseTime : Int) : Resp × Option CacheWrite :=
  match outcome with
  | .resp status data etagHdr =>
    if respOk status then
      let etag := jsOrStr etagHdr (generateEtag data)
      (createSuccessResponse data .miss responseTime (some etag),
       some ⟨cacheKey, ⟨data, fetchNow, some etag⟩, 1800⟩)
    else
      match staleCache with
      | some c => (createSuccessResponse c.data .stale responseTime c.etag, none)
      | none =>
        (createErrorResponse
          (if msgIncludesAbort ("Origin returned " ++ toString status)
           then "Origin timeout (10s)" else "Origin unavailable") 503 responseTime,
         none)
  | .exn message =>
    match staleCache with
    | some c => (createSuccessResponse c.data .stale responseTime c.etag, none)
    | none =>
      (createErrorResponse
        (if msgIncludesAbort message then "Origin timeout (10s)" else "Origin unavailable")
        503 responseTime, none)

/-- `fetchRecommendationsFromOrigin` (the think origin): same shape with
a 10 minute TTL. -/
def fetchRecommendationsFromOrigin (shop productHandle cacheKey : String)
    (staleCache : Option CachedResponse) (outcome : OriginOutcome)
    (fetchNow responseTime : Int) : Resp × Option CacheWrite :=
  match outcome with
  | .resp status data etagHdr =>
    if respOk status then
      let etag := jsOrStr etagHdr (generateEtag data)
      (createSuccessResponse data .miss responseTime (some etag),
       some ⟨cacheKey, ⟨data, fetchNow, some etag⟩, 600⟩)
    else
      match staleCache with
      | some c => (createSuccessResponse c.data .stale responseTime c.etag, none)
      | none =>
        (createErrorResponse
          (if msgIncludesAbort ("Origin returned " ++ toString status)
           then "Origin timeout (10s)" else "Origin unavailable") 503 responseTime,
         none)
  | .exn message =>
    match staleCache with
    | some c => (createSuccessResponse c.data .stale responseTime c.etag, none)
    | none =>
      (createErrorResponse
        (if msgIncludesAbort message then "Origin timeout (10s)" else "Origin unavailable")
        503 responseTime, none)

/-! ### Handlers -/

/-- The per-request effects a handler performs, besides its response. -/
structure HandlerEffects where
  cacheReadAttempted : Bool
  coalescerJoined : Bool
  registeredKey : Option String
  originCalled : Bool
  cacheWrite : Option CacheWrite

/-- No effects yet. -/
def noEffects : HandlerEffects :=
  { cacheReadAttempted := false, coalescerJoined := false, registeredKey := none,
    originCalled := false, cacheWrite := none }

/-- The coalescing block of `handleProductRecommendation` (source lines
162-180), entered after the fresh-hit check with the possibly-stale read
result as fallback: join an existing in-flight response and clone it, or
register a new origin call under the key. -/
def productCoalesceStep (body : ProductRequestBody) (cacheKey : String)
    (staleCache : Option CachedResponse) (inflightExisting : Option Resp)
    (outcome : OriginOutcome) (fetchNow responseTime : Int) : Resp × HandlerEffects :=
  match inflightExisting with
  | some r =>
      (cloneResp r,
       { noEffects with cacheReadAttempted := true, coalescerJoined := true })
  | none =>
      let fr := fetchProductFromOrigin body cacheKey staleCache outcome fetchNow responseTime
      (fr.1,
       { cacheReadAttempted := true, coalescerJoined := false,
         registeredKey := some cacheKey, originCalled := true, cacheWrite := fr.2 })

/-- `handleProductRecommendation`: method check, parse check, cache key,
KV read, fresh-hit short-circuit, then the coalescing block. The parse
result, KV outcome, in-flight map state and origin outcome are explicit
inputs. -/
def handleProductRecommendation (method : String)
    (parsedBody : Option ProductRequestBody) (readOutcome : CacheReadOutcome)
    (now : Int) (inflightExisting : Option Resp) (outcome : OriginOutcome)
    (fetchNow responseTime : Int) : Resp × HandlerEffects :=
  if method ≠ "GET" then
    (createErrorResponse "Method not allowed" 405 responseTime, noEffects)
  else
    match parsedBody with
    | none => (createErrorResponse "Invalid request parameters" 400 responseTime, noEffects)
    | some body =>
      let cacheKey := generateProductCacheKey body
      match getCachedResponse readOutcome with
      | some c =>
        if isStale now c = false then
          (createSuccessResponse c.data .hit responseTime c.etag,
           { noEffects with cacheReadAttempted := true })
        else
          productCoalesceStep body cacheKey (some c) inflightExisting outcome
            fetchNow responseTime
      | none =>
          productCoalesceStep body cacheKey none inflightExisting outcome
            fetchNow responseTime

/-- The coalescing block of `handleStorefrontRequest` for non-action
requests. -/
def storefrontCoalesceStep (body : StorefrontRequestBody) (cacheKey : String)
    (staleCache : Option CachedResponse) (inflightExisting : Option Resp)
    (outcome : OriginOutcome) (fetchNow responseTime : Int) : Resp × HandlerEffects :=
  match inflightExisting with
  | some r =>
      (cloneResp r,
       { noEffects with cacheReadAttempted := true, coalescerJoined := true })
  | none =>
      let fr := fetchStorefrontFromOrigin body (some cacheKey) staleCache outcome
        fetchNow responseTime
      (fr.1,
       { cacheReadAttempted := true, coalescerJoined := false,
         registeredKey := some cacheKey, originCalled := true, cacheWrite := fr.2 })

/-- `handleStorefrontRequest`: for a body without a truthy `actionType`
the cached/coalesced path runs; for an action request the origin is
called directly with no key, no fallback, no cache read and no
registration. -/
def handleStorefrontRequest (method : String)
    (parsedBody : Option StorefrontRequestBody) (readOutcome : CacheReadOutcome)
    (now : Int) (inflightExisting : Option Resp) (outcome : OriginOutcome)
    (fetchNow responseTime : Int) : Resp × HandlerEffects :=
  if method ≠ "POST" then
    (createErrorResponse "Method not allowed" 405 responseTime, noEffects)
  else
    match parsedBody with
    | none => (createErrorResponse "Invalid request parameters" 400 responseTime, noEffects)
    | some body =>
      if truthyOptStr body.actionType = false then
        let cacheKey := generateStorefrontCacheKey body
        match getCachedResponse readOutcome with
        | some c =>
          if isStale now c = false then
            (createSuccessResponse c.data .hit responseTime c.etag,
             { noEffects with cacheReadAttempted := true })
          else
            storefrontCoalesceStep body cacheKey (some c) inflightExisting outcome
              fetchNow responseTime
        | none =>
            storefrontCoalesceStep body cacheKey none inflightExisting outcome
              fetchNow responseTime
      else
        let fr := fetchStorefrontFromOrigin body none none outcome fetchNow responseTime
        (fr.1, { noEffects with originCalled := true, cacheWrite := fr.2 })

/-! ### Endpoint table -/

/-- The five cacheable endpoints of the gateway. -/
inductive Endpoint
  | product
  | cart
  | storefront
  | upsell
  | handle
  deriving DecidableEq

/-- Modelled from the spec: the per-endpoint freshness windows (in
milliseconds) that the spec's endpoint table claims for the staleness
classification — 1 hour for product and cart, 5 minutes for storefront,
30 minutes for upsell, 10 minutes for handle recommendation. The code's
classification is `isStale`; this definition follows the spec's words
and exists to be compared with it. -/
def specClaimedFreshnessWindowMs : Endpoint → Int
  | .product => 3600000
  | .cart => 3600000
  | .storefront => 300000
  | .upsell => 1800000
  | .handle => 600000

/-- The hard KV TTL (seconds) each fetcher passes to `CACHE.put`. -/
def hardTTLSeconds : Endpoint → Nat
  | .product => 3600
  | .cart => 3600
  | .storefront => 300
  | .upsell => 1800
  | .handle => 600

/-! ### The in-flight coalescer as a transition system

One worker instance runs callers cooperatively: between two awaits a
caller's code is atomic. The coalescing block (map lookup, registration,
settle, scoped cleanup) is modelled as a small-step system over all
callers; every interleaving of the steps below is considered.
`register` is one atomic step because the source has no await between
`inFlightRequests.get(cacheKey)` returning `undefined` and
`inFlightRequests.set(cacheKey, requestPromise)`, and calling the async
fetcher starts the origin call synchronously up to its first await.
`producerResume` is the producer's `await requestPromise` continuation
together with the `finally` cleanup, again with no await in between. -/

/-- Caller (thread) identifier. -/
abbrev TId := Nat

/-- The state of one registered promise. -/
inductive CoProm
  | pending
  | resolved (r : Resp)

/-- Where one caller stands in the coalescing block. -/
inductive CoPhase
  | ready (k : String)
  | producerWait (k : String)
  | joinerWait (k : String) (p : TId)
  | doneProducer (k : String) (r : Resp)
  | doneJoiner (k : String) (p : TId) (r : Resp)

/-- The coalescer-relevant state of one worker instance: the in-flight
map, each caller's promise (if it produced one), each caller's phase,
and a ghost count of origin-fetcher invocations per key. -/
structure CoState where
  inflight : String → Option TId
  prom : TId → Option CoProm
  phase : TId → CoPhase
  originCalls : String → Nat

/-- One atomic step of one caller (or of the origin settling a call). -/
inductive CoStep : CoState → CoState → Prop
  | register (s : CoState) (t : TId) (k : String)
      (hph : s.phase t = .ready k) (hif : s.inflight k = none) :
      CoStep s
        { inflight := Function.update s.inflight k (some t)
          prom := Function.update s.prom t (some .pending)
          phase := Function.update s.phase t (.producerWait k)
          originCalls := Function.update s.originCalls k (s.originCalls k + 1) }
  | join (s : CoState) (t : TId) (k : String) (p : TId)
      (hph : s.phase t = .ready k) (hif : s.inflight k = some p) :
      CoStep s { s with phase := Function.update s.phase t (.joinerWait k p) }
  | settle (s : CoState) (p : TId) (r : Resp)
      (hpr : s.prom p = some .pending) :
      CoStep s { s with prom := Function.update s.prom p (some (.resolved r)) }
  | producerResume (s : CoState) (p : TId) (k : String) (r : Resp)
      (hph : s.phase p = .producerWait k) (hpr : s.prom p = some (.resolved r)) :
      CoStep s
        { s with inflight := Function.update s.inflight k none
                 phase := Function.update s.phase p (.doneProducer k r) }
  | joinerResume (s : CoState) (t : TId) (k : String) (p : TId) (r : Resp)
      (hph : s.phase t = .joinerWait k p) (hpr : s.prom p = some (.resolved r)) :
      CoStep s { s with phase := Function.update s.phase t (.doneJoiner k p (cloneResp r)) }

/-- An initial instance state: empty in-flight map, no promises, every
caller about to enter the coalescing block for its key, no origin calls
yet. -/
def CoInit (s : CoState) : Prop :=
  (∀ k, s.inflight k = none) ∧ (∀ t, s.prom t = none) ∧
    (∀ t, ∃ k, s.phase t = CoPhase.ready k) ∧ (∀ k, s.originCalls k = 0)

/-- Reachability under any interleaving. -/
def CoReachable (s₀ s : CoState) : Prop :=
  Relation.ReflTransGen CoStep s₀ s

/-- The coalescer invariant. -/
structure CoInv (s : CoState) : Prop where
  readyProm : ∀ t k, s.phase t = .ready k → s.prom t = none
  producerOfInflight : ∀ k p, s.inflight k = some p → s.phase p = .producerWait k
  inflightOfProducer : ∀ p k, s.phase p = .producerWait k → s.inflight k = some p
  promOfProducer : ∀ p k, s.phase p = .producerWait k → s.prom p ≠ none
  promOfJoinTarget : ∀ t k p, s.phase t = .joinerWait k p → s.prom p ≠ none
  joinerDone : ∀ t k p r, s.phase t = .doneJoiner k p r → s.prom p = some (.resolved r)
  producerDone : ∀ p k r, s.phase p = .doneProducer k r → s.prom p = some (.resolved r)
  producerDoneGone : ∀ p k r, s.phase p = .doneProducer k r → s.inflight k ≠ some p

/-- A two-caller initial state used to witness the coalescing theorem. -/
def coInitTwo : CoState :=
  { inflight := fun _ => none
    prom := fun _ => none
    phase := fun _ => CoPhase.ready "k"
    originCalls := fun _ => 0 }

/-! ### Concrete inputs used by the witnesses and counterexamples -/

/-- A product request mirroring the repository's own test fixture
(`shop=test.myshopify.com&productId=123456&type=cart`) with exclusion
list `3,2,1`. -/
def exBodyA : ProductRequestBody :=
  { shop := "test.myshopify.com", productId := some "123456", productHandle := none,
    type := "cart", layout := none, limit := none,
    excludeProductIds := some ["3", "2", "1"], cartToken := none }

/-- The same request with a different cart token and nothing else
changed. -/
def exBodyB : ProductRequestBody :=
  { exBodyA with cartToken := some "tok-b" }

/-- The same request as `exBodyA` with the exclusion list submitted in
the order `1,2,3`. -/
def exBodyRe : ProductRequestBody :=
  { exBodyA with excludeProductIds := some ["1", "2", "3"] }

/-- A cart-recommendation request with products `[10, 9, 2]`. -/
def exCartA : CartRequestBody :=
  { shop := "test.myshopify.com", type := "cart", products := some [10, 9, 2],
    layout := some "grid", limit := some (.int 4), cartToken := none }

/-- The same cart request with products submitted as `[2, 10, 9]`. -/
def exCartB : CartRequestBody :=
  { exCartA with products := some [2, 10, 9] }

/-- A two-item storefront cart. -/
def exCart1 : SFCart :=
  { token := some "ct-1", total_price := some 5000, item_count := some 3,
    items := some
      [{ variant_id := 22, quantity := 1, properties := none,
         product_id := 7, price := 2000 },
       { variant_id := 11, quantity := 2, properties := some (.jstr "gift"),
         product_id := 5, price := 1500 }],
    currency := some "USD" }

/-- The same cart projection with the items submitted in the other
order, a different currency, and different ignored per-item fields. -/
def exCart2 : SFCart :=
  { token := some "ct-1", total_price := some 5000, item_count := some 3,
    items := some
      [{ variant_id := 11, quantity := 2, properties := some (.jstr "gift"),
         product_id := 50, price := 1 },
       { variant_id := 22, quantity := 1, properties := none,
         product_id := 70, price := 2 }],
    currency := some "EUR" }

/-- A non-action storefront request over `exCart1`. -/
def exSFBodyA : StorefrontRequestBody :=
  { cart := exCart1, shop := "test.myshopify.com", actionType := none,
    variantId := some "11", «attribute» := none }

/-- A non-action storefront request over `exCart2` with different
`variantId` and `attribute`. -/
def exSFBodyB : StorefrontRequestBody :=
  { cart := exCart2, shop := "test.myshopify.com", actionType := none,
    variantId := none, «attribute» := some "progress" }

/-- A storefront request whose `actionType` is set (to the empty
string): present in the JSON body, yet falsy in JS. -/
def exSFBodyEmptyAction : StorefrontRequestBody :=
  { cart := exCart1, shop := "test.myshopify.com", actionType := some "",
    variantId := none, «attribute» := none }

/-- A storefront action request (`addFreeGift`). -/
def exSFBodyAction : StorefrontRequestBody :=
  { cart := exCart1, shop := "test.myshopify.com", actionType := some "addFreeGift",
    variantId := some "11", «attribute» := none }

/-- A cached entry written at time 0. -/
def exEntry : CachedResponse :=
  { data := .jobj [("products", .jarr [.jstr "cached-product"])],
    timestamp := 0, etag := some "\"stale-etag\"" }

/-- Two optional lists differ only in element order: both absent, or
both present and permutations of each other. -/
def optPerm {α : Type} : Option (List α) → Option (List α) → Prop
  | none, none => True
  | some l₁, some l₂ => l₁.Perm l₂
  | some _, none => False
  | none, some _ => False

instance optPermDecidable {α : Type} [DecidableEq α] :
    ∀ a b : Option (List α), Decidable (optPerm a b)
  | none, none => .isTrue trivial
  | some l₁, some l₂ => inferInstanceAs (Decidable (l₁.Perm l₂))
  | some _, none => .isFalse id
  | none, some _ => .isFalse id

/-! ### Coalescer invariant lemmas -/

/-- The invariant holds in any initial state. -/
theorem coInv_init (s : CoState) (h : CoInit s) : CoInv s := by
  obtain ⟨hif, hpr, hph, _⟩ := h
  refine ⟨?_, ?_, ?_, ?_, ?_, ?_, ?_, ?_⟩
  · intro t k _; exact hpr t
  · intro k p hk; simp [hif k] at hk
  · intro p k hk; obtain ⟨k', hk'⟩ := hph p; rw [hk'] at hk; simp at hk
  · intro p k hk; obtain ⟨k', hk'⟩ := hph p; rw [hk'] at hk; simp at hk
  · intro t k p hk; obtain ⟨k', hk'⟩ := hph t; rw [hk'] at hk; simp at hk
  · intro t k p r hk; obtain ⟨k', hk'⟩ := hph t; rw [hk'] at hk; simp at hk
  · intro p k r hk; obtain ⟨k', hk'⟩ := hph p; rw [hk'] at hk; simp at hk
  · intro p k r hk; obtain ⟨k', hk'⟩ := hph p; rw [hk'] at hk; simp at hk

/-- The invariant is preserved by every step. -/
theorem coInv_step {s s' : CoState} (hv : CoInv s) (hstep : CoStep s s') : CoInv s' := by
  cases hstep with
  | register t k hph hif =>
    have hpt : s.prom t = none := hv.readyProm t k hph
    refine ⟨?_, ?_, ?_, ?_, ?_, ?_, ?_, ?_⟩
    · intro t' k' h
      dsimp only at h ⊢
      rcases eq_or_ne t' t with rfl | hne
      · rw [Function.update_same] at h; simp at h
      · rw [Function.update_noteq hne] at h
        rw [Function.update_noteq hne]
        exact hv.readyProm t' k' h
    · intro k' p h
      dsimp only at h ⊢
      rcases eq_or_ne k' k with rfl | hk
      · rw [Function.update_same] at h
        cases h
        rw [Function.update_same]
      · rw [Function.update_noteq hk] at h
        have hp := hv.producerOfInflight k' p h
        have hpt' : p ≠ t := by
          intro he; rw [he, hph] at hp; simp at hp
        rw [Function.update_noteq hpt']
        exact hp
    · intro p k' h
      dsimp only at h ⊢
      rcases eq_or_ne p t with rfl | hp
      · rw [Function.update_same] at h
        cases h
        rw [Function.update_same]
      · rw [Function.update_noteq hp] at h
        have := hv.inflightOfProducer p k' h
        have hk : k' ≠ k := by
          intro he; rw [he, hif] at this; simp at this
        rw [Function.update_noteq hk]
        exact this
    · intro p k' h
      dsimp only at h ⊢
      rcases eq_or_ne p t with rfl | hp
      · rw [Function.update_same]; simp
      · rw [Function.update_noteq hp] at h
        rw [Function.update_noteq hp]
        exact hv.promOfProducer p k' h
    · intro t' k' p h
      dsimp only at h ⊢
      rcases eq_or_ne t' t with rfl | hne
      · rw [Function.update_same] at h; simp at h
      · rw [Function.update_noteq hne] at h
        have := hv.promOfJoinTarget t' k' p h
        rcases eq_or_ne p t with rfl | hpt'
        · rw [Function.update_same]; simp
        · rw [Function.update_noteq hpt']; exact this
    · intro t' k' p r h
      dsimp only at h ⊢
      rcases eq_or_ne t' t with rfl | hne
      · rw [Function.update_same] at h; simp at h
      · rw [Function.update_noteq hne] at h
        have hj := hv.joinerDone t' k' p r h
        have hpt' : p ≠ t := by
          intro he; rw [he, hpt] at hj; simp at hj
        rw [Function.update_noteq hpt']
        exact hj
    · intro p k' r h
      dsimp only at h ⊢
      rcases eq_or_ne p t with rfl | hp
      · rw [Function.update_same] at h; simp at h
      · rw [Function.update_noteq hp] at h
        have hd := hv.producerDone p k' r h
        have hpt' : p ≠ t := hp
        rw [Function.update_noteq hpt']
        exact hd
    · intro p k' r h
      dsimp only at h ⊢
      rcases eq_or_ne p t with rfl | hp
      · rw [Function.update_same] at h; simp at h
      · rw [Function.update_noteq hp] at h
        have hd := hv.producerDoneGone p k' r h
        rcases eq_or_ne k' k with rfl | hk
        · rw [Function.update_same]
          intro he; cases he
          exact absurd hph (by rw [h]; simp)
        · rw [Function.update_noteq hk]
          exact hd
  | join t k p hph hif =>
    refine ⟨?_, ?_, ?_, ?_, ?_, ?_, ?_, ?_⟩
    · intro t' k' h
      dsimp only at h ⊢
      rcases eq_or_ne t' t with rfl | hne
      · rw [Function.update_same] at h; simp at h
      · rw [Function.update_noteq hne] at h
        exact hv.readyProm t' k' h
    · intro k' p' h
      dsimp only at h ⊢
      have hp := hv.producerOfInflight k' p' h
      have hne : p' ≠ t := by
        intro he; rw [he, hph] at hp; simp at hp
      rw [Function.update_noteq hne]
      exact hp
    · intro p' k' h
      dsimp only at h ⊢
      rcases eq_or_ne p' t with rfl | hne
      · rw [Function.update_same] at h; simp at h
      · rw [Function.update_noteq hne] at h
        exact hv.inflightOfProducer p' k' h
    · intro p' k' h
      dsimp only at h ⊢
      rcases eq_or_ne p' t with rfl | hne
      · rw [Function.update_same] at h; simp at h
      · rw [Function.update_noteq hne] at h
        exact hv.promOfProducer p' k' h
    · intro t' k' p' h
      dsimp only at h ⊢
      rcases eq_or_ne t' t with rfl | hne
      · rw [Function.update_same] at h
        cases h
        exact hv.promOfProducer p k (hv.producerOfInflight k p hif)
      · rw [Function.update_noteq hne] at h
        exact hv.promOfJoinTarget t' k' p' h
    · intro t' k' p' r h
      dsimp only at h ⊢
      rcases eq_or_ne t' t with rfl | hne
      · rw [Function.update_same] at h; simp at h
      · rw [Function.update_noteq hne] at h
        exact hv.joinerDone t' k' p' r h
    · intro p' k' r h
      dsimp only at h ⊢
      rcases eq_or_ne p' t with rfl | hne
      · rw [Function.update_same] at h; simp at h
      · rw [Function.update_noteq hne] at h
        exact hv.producerDone p' k' r h
    · intro p' k' r h
      dsimp only at h ⊢
      rcases eq_or_ne p' t with rfl | hne
      · rw [Function.update_same] at h; simp at h
      · rw [Function.update_noteq hne] at h
        exact hv.producerDoneGone p' k' r h
  | settle p r hpr =>
    refine ⟨?_, ?_, ?_, ?_, ?_, ?_, ?_, ?_⟩
    · intro t' k' h
      dsimp only at h ⊢
      have hn := hv.readyProm t' k' h
      have hne : t' ≠ p := by
        intro he; rw [he, hpr] at hn; simp at hn
      rw [Function.update_noteq hne]
      exact hn
    · intro k' p' h; exact hv.producerOfInflight k' p' h
    · intro p' k' h; exact hv.inflightOfProducer p' k' h
    · intro p' k' h
      dsimp only at h ⊢
      rcases eq_or_ne p' p with rfl | hne
      · rw [Function.update_same]; simp
      · rw [Function.update_noteq hne]
        exact hv.promOfProducer p' k' h
    · intro t' k' p' h
      dsimp only at h ⊢
      rcases eq_or_ne p' p with rfl | hne
      · rw [Function.update_same]; simp
      · rw [Function.update_noteq hne]
        exact hv.promOfJoinTarget t' k' p' h
    · intro t' k' p' r' h
      dsimp only at h ⊢
      have hj := hv.joinerDone t' k' p' r' h
      have hne : p' ≠ p := by
        intro he; rw [he, hpr] at hj; simp at hj
      rw [Function.update_noteq hne]
      exact hj
    · intro p' k' r' h
      dsimp only at h ⊢
      have hd := hv.producerDone p' k' r' h
      have hne : p' ≠ p := by
        intro he; rw [he, hpr] at hd; simp at hd
      rw [Function.update_noteq hne]
      exact hd
    · intro p' k' r' h; exact hv.producerDoneGone p' k' r' h
  | producerResume p k r hph hpr =>
    refine ⟨?_, ?_, ?_, ?_, ?_, ?_, ?_, ?_⟩
    · intro t' k' h
      dsimp only at h ⊢
      rcases eq_or_ne t' p with rfl | hne
      · rw [Function.update_same] at h; simp at h
      · rw [Function.update_noteq hne] at h
        exact hv.readyProm t' k' h
    · intro k' p' h
      dsimp only at h ⊢
      rcases eq_or_ne k' k with rfl | hk
      · rw [Function.update_same] at h; simp at h
      · rw [Function.update_noteq hk] at h
        have hp' := hv.producerOfInflight k' p' h
        have hne : p' ≠ p := by
          intro he; rw [he, hph] at hp'
          cases hp'
          exact hk rfl
        rw [Function.update_noteq hne]
        exact hp'
    · intro p' k' h
      dsimp only at h ⊢
      rcases eq_or_ne p' p with rfl | hne
      · rw [Function.update_same] at h; simp at h
      · rw [Function.update_noteq hne] at h
        have hi := hv.inflightOfProducer p' k' h
        have hk : k' ≠ k := by
          intro he
          rw [he] at hi
          rw [hv.inflightOfProducer p k hph] at hi
          cases hi
          exact hne rfl
        rw [Function.update_noteq hk]
        exact hi
    · intro p' k' h
      dsimp only at h ⊢
      rcases eq_or_ne p' p with rfl | hne
      · rw [Function.update_same] at h; simp at h
      · rw [Function.update_noteq hne] at h
        exact hv.promOfProducer p' k' h
    · intro t' k' p' h
      dsimp only at h ⊢
      rcases eq_or_ne t' p with rfl | hne
      · rw [Function.update_same] at h; simp at h
      · rw [Function.update_noteq hne] at h
        exact hv.promOfJoinTarget t' k' p' h
    · intro t' k' p' r' h
      dsimp only at h ⊢
      rcases eq_or_ne t' p with rfl | hne
      · rw [Function.update_same] at h; simp at h
      · rw [Function.update_noteq hne] at h
        exact hv.joinerDone t' k' p' r' h
    · intro p' k' r' h
      dsimp only at h ⊢
      rcases eq_or_ne p' p with rfl | hne
      · rw [Function.update_same] at h
        cases h
        exact hpr
      · rw [Function.update_noteq hne] at h
        exact hv.producerDone p' k' r' h
    · intro p' k' r' h
      dsimp only at h ⊢
      rcases eq_or_ne p' p with rfl | hne
      · rw [Function.update_same] at h
        cases h
        rw [Function.update_same]
        simp
      · rw [Function.update_noteq hne] at h
        have hd := hv.producerDoneGone p' k' r' h
        rcases eq_or_ne k' k with rfl | hk
        · rw [Function.update_same]; simp
        · rw [Function.update_noteq hk]
          exact hd
  | joinerResume t k p r hph hpr =>
    refine ⟨?_, ?_, ?_, ?_, ?_, ?_, ?_, ?_⟩
    · intro t' k' h
      dsimp only at h ⊢
      rcases eq_or_ne t' t with rfl | hne
      · rw [Function.update_same] at h; simp at h
      · rw [Function.update_noteq hne] at h
        exact hv.readyProm t' k' h
    · intro k' p' h
      dsimp only at h ⊢
      have hp' := hv.producerOfInflight k' p' h
      have hne : p' ≠ t := by
        intro he; rw [he, hph] at hp'; simp at hp'
      rw [Function.update_noteq hne]
      exact hp'
    · intro p' k' h
      dsimp only at h ⊢
      rcases eq_or_ne p' t with rfl | hne
      · rw [Function.update_same] at h; simp at h
      · rw [Function.update_noteq hne] at h
        exact hv.inflightOfProducer p' k' h
    · intro p' k' h
      dsimp only at h ⊢
      rcases eq_or_ne p' t with rfl | hne
      · rw [Function.update_same] at h; simp at h
      · rw [Function.update_noteq hne] at h
        exact hv.promOfProducer p' k' h
    · intro t' k' p' h
      dsimp only at h ⊢
      rcases eq_or_ne t' t with rfl | hne
      · rw [Function.update_same] at h; simp at h
      · rw [Function.update_noteq hne] at h
        exact hv.promOfJoinTarget t' k' p' h
    · intro t' k' p' r' h
      dsimp only at h ⊢
      rcases eq_or_ne t' t with rfl | hne
      · rw [Function.update_same] at h
        cases h
        exact hpr
      · rw [Function.update_noteq hne] at h
        exact hv.joinerDone t' k' p' r' h
    · intro p' k' r' h
      dsimp only at h ⊢
      rcases eq_or_ne p' t with rfl | hne
      · rw [Function.update_same] at h; simp at h
      · rw [Function.update_noteq hne] at h
        exact hv.producerDone p' k' r' h
    · intro p' k' r' h
      dsimp only at h ⊢
      rcases eq_or_ne p' t with rfl | hne
      · rw [Function.update_same] at h; simp at h
      · rw [Function.update_noteq hne] at h
        exact hv.producerDoneGone p' k' r' h

/-- The invariant holds in every reachable state. -/
theorem coInv_reachable {s₀ s : CoState} (h0 : CoInit s₀) (hr : CoReachable s₀ s) :
    CoInv s := by
  induction hr with
  | refl => exact coInv_init s₀ h0
  | tail _ hstep ih => exact coInv_step ih hstep

/-- A step changes a key's origin-call count only by registering a new
producer while no in-flight entry exists for that key. -/
theorem originCalls_change {s s' : CoState} (hstep : CoStep s s') (k : String)
    (hne : s'.originCalls k ≠ s.originCalls k) :
    s.inflight k = none ∧ s'.originCalls k = s.originCalls k + 1 ∧
      s'.inflight k ≠ none := by
  cases hstep with
  | register t k' hph hif =>
    dsimp only at hne ⊢
    rcases eq_or_ne k k' with rfl | hk
    · rw [Function.update_same, Function.update_same]
      exact ⟨hif, rfl, by simp⟩
    · rw [Function.update_noteq hk] at hne
      exact absurd rfl hne
  | join t k' p hph hif => exact absurd rfl hne
  | settle p r hpr => exact absurd rfl hne
  | producerResume p k' r hph hpr => exact absurd rfl hne
  | joinerResume t k' p r hph hpr => exact absurd rfl hne

/-! ### Sorting lemmas -/

/-- Sorted permutations of a string list agree, so the stable JS sort of
a string list depends only on the multiset of elements. -/
theorem jsSortStrings_perm_eq {l₁ l₂ : List String} (h : l₁.Perm l₂) :
    jsSortStrings l₁ = jsSortStrings l₂ := by
  apply List.eq_of_perm_of_sorted
    ((List.perm_insertionSort _ l₁).trans (h.trans (List.perm_insertionSort _ l₂).symm))
    (List.sorted_insertionSort _ l₁) (List.sorted_insertionSort _ l₂)

/-- Inserting by string comparison and then rendering equals rendering
and then inserting. -/
theorem map_toString_orderedInsert (a : Int) (l : List Int) :
    (List.orderedInsert (fun x y : Int => toString x ≤ toString y) a l).map toString
      = List.orderedInsert (fun x y : String => x ≤ y) (toString a) (l.map toString) := by
  induction l with
  | nil => rfl
  | cons b l ih =>
    simp only [List.orderedInsert]
    by_cases h : (toString a : String) ≤ toString b
    · rw [if_pos h, if_pos h]
      rfl
    · rw [if_neg h, if_neg h]
      simp only [List.map_cons]
      rw [ih]

/-- The default JS sort of a number array, rendered, equals the string
sort of the rendered array. -/
theorem map_toString_jsSortNums (l : List Int) :
    (jsSortNumsDefault l).map toString = jsSortStrings (l.map toString) := by
  induction l with
  | nil => rfl
  | cons a l ih =>
    have ih' : (List.insertionSort (fun a b : Int => toString a ≤ toString b) l).map toString
        = jsSortStrings (l.map toString) := ih
    show (List.orderedInsert _ a (List.insertionSort _ l)).map toString = _
    rw [map_toString_orderedInsert, ih']
    rfl

/-! ### The thrown `Origin returned N` message never matches the abort test -/

/-- Digits of a base-10 rendering are never the letter `a`. -/
theorem digitChar_ne_a (m : Nat) (hm : m < 10) : Nat.digitChar m ≠ 'a' := by
  revert m
  decide

/-- No character of `Nat.toDigitsCore 10 fuel n acc` is `a` when none of
`acc` is. -/
theorem toDigitsCore_no_a (fuel : Nat) :
    ∀ (n : Nat) (acc : List Char), (∀ c ∈ acc, c ≠ 'a') →
      ∀ c ∈ Nat.toDigitsCore 10 fuel n acc, c ≠ 'a' := by
  induction fuel with
  | zero => intro n acc hacc c hc; exact hacc c hc
  | succ fuel ih =>
    intro n acc hacc c hc
    simp only [Nat.toDigitsCore] at hc
    have hd : ∀ c' ∈ Nat.digitChar (n % 10) :: acc, c' ≠ 'a' := by
      intro c' hc'
      rcases List.mem_cons.mp hc' with rfl | h
      · exact digitChar_ne_a _ (Nat.mod_lt _ (by norm_num))
      · exact hacc c' h
    by_cases hz : n / 10 = 0
    · rw [if_pos hz] at hc
      exact hd c hc
    · rw [if_neg hz] at hc
      exact ih _ _ hd c hc

/-- `hasRun` for a needle that starts with `a` fails on a haystack
without `a`. -/
theorem hasRun_abort_eq_false (l : List Char) (h : ∀ c ∈ l, c ≠ 'a') :
    hasRun "abort".data l = false := by
  induction l with
  | nil => rfl
  | cons d ds ih =>
    show (leadsWith "abort".data (d :: ds) || hasRun "abort".data ds) = false
    have hda : ('a' == d) = false := by
      have := h d (List.mem_cons_self d ds)
      simp [beq_eq_false_iff_ne]
      exact fun he => this he.symm
    have h1 : leadsWith "abort".data (d :: ds) = false := by
      show (('a' == d) && leadsWith "bort".data ds) = false
      rw [hda]
      rfl
    rw [h1, ih (fun c hc => h c (List.mem_cons_of_mem d hc))]
    rfl

/-- The thrown `Origin returned N` message never contains `abort`. -/
theorem msgIncludesAbort_originReturned (st : Nat) :
    msgIncludesAbort ("Origin returned " ++ toString st) = false := by
  apply hasRun_abort_eq_false
  intro c hc
  have hdata : ("Origin returned " ++ toString st).data
      = "Origin returned ".data ++ Nat.toDigits 10 st := rfl
  rw [hdata] at hc
  have hfixed : ∀ c' ∈ "Origin returned ".data, c' ≠ 'a' := by decide
  rcases List.mem_append.mp hc with h | h
  · exact hfixed c h
  · exact toDigitsCore_no_a (st + 1) st [] (by intro c' hc'; cases hc') c h

/-! ### Claim theorems -/

/-- C1: within one worker instance, under every interleaving of
concurrent dispatcher calls: a step can invoke the origin fetcher for a
key only when no in-flight entry exists for that key (so while the first
call's entry is outstanding the producer is invoked exactly once); the
registered entry always points at its live producer; every caller that
completed as a joiner holds exactly the resolved value of the promise it
joined, hence an equivalent clone of its producer's result, success or
failure; once the producer's promise settles — with any result — the
producer's next step removes the in-flight entry unconditionally; and a
completed producer's entry is gone, so at most one in-flight entry per
key exists at any instant. -/
theorem c1_coalescing (s₀ s : CoState) (h0 : CoInit s₀) (hr : CoReachable s₀ s) :
    (∀ (s' : CoState) (k : String), CoStep s s' → s'.originCalls k ≠ s.originCalls k →
        s.inflight k = none ∧ s'.originCalls k = s.originCalls k + 1) ∧
    (∀ (k : String) (p : TId), s.inflight k = some p → s.phase p = CoPhase.producerWait k) ∧
    (∀ (t : TId) (k : String) (p : TId) (r : Resp),
        s.phase t = CoPhase.doneJoiner k p r → s.prom p = some (CoProm.resolved r)) ∧
    (∀ (t p : TId) (k k' : String) (r r' : Resp),
        s.phase t = CoPhase.doneJoiner k p r → s.phase p = CoPhase.doneProducer k' r' →
        r = r') ∧
    (∀ (p : TId) (k : String) (r : Resp),
        s.phase p = CoPhase.producerWait k → s.prom p = some (CoProm.resolved r) →
        ∃ s', CoStep s s' ∧ s'.inflight k = none ∧ s'.phase p = CoPhase.doneProducer k r) ∧
    (∀ (p : TId) (k : String) (r : Resp),
        s.phase p = CoPhase.doneProducer k r → s.inflight k ≠ some p) := by
  have hv := coInv_reachable h0 hr
  refine ⟨?_, hv.producerOfInflight, hv.joinerDone, ?_, ?_, hv.producerDoneGone⟩
  · intro s' k hstep hne
    exact ⟨(originCalls_change hstep k hne).1, (originCalls_change hstep k hne).2.1⟩
  · intro t p k k' r r' hj hp
    have h1 := hv.joinerDone t k p r hj
    have h2 := hv.producerDone p k' r' hp
    rw [h1] at h2
    simp only [Option.some.injEq, CoProm.resolved.injEq] at h2
    exact h2
  · intro p k r hph hpr
    refine ⟨_, CoStep.producerResume s p k r hph hpr, ?_, ?_⟩
    · dsimp only
      rw [Function.update_same]
    · dsimp only
      rw [Function.update_same]

/-- Witness for C1 at a concrete two-caller initial state. -/
theorem c1_coalescing_witness :
    CoInit coInitTwo ∧
      (∀ (k : String) (p : TId), coInitTwo.inflight k = some p →
        coInitTwo.phase p = CoPhase.producerWait k) := by
  have h0 : CoInit coInitTwo :=
    ⟨fun _ => rfl, fun _ => rfl, fun _ => ⟨"k", rfl⟩, fun _ => rfl⟩
  exact ⟨h0, (c1_coalescing coInitTwo coInitTwo h0 Relation.ReflTransGen.refl).2.1⟩

/-- C2 counterexample: a storefront cache entry written at time 0 and
read 10 minutes later is past the spec's claimed 5-minute storefront
freshness window, yet the code's `isStale` (one shared 1-hour window)
classifies it fresh and the storefront handler serves it as a `HIT`
with no origin call. -/
theorem c2_staleness_counterexample :
    isStale 600000 exEntry = false ∧
    ¬((600000 : Int) - exEntry.timestamp ≤ specClaimedFreshnessWindowMs Endpoint.storefront) ∧
    (handleStorefrontRequest "POST" (some exSFBodyA) (CacheReadOutcome.ok (some exEntry))
        600000 none (OriginOutcome.exn "network error") 600000 5).1.header "X-Cache"
      = some "HIT" := by
  refine ⟨rfl, by decide, ?_⟩
  rfl

/-- C2 amended: the staleness classification of an existing entry is
`FRESH` iff `now - entry.timestamp ≤ 1 hour`, uniformly for every
endpoint — the single shared `isStale` has no per-endpoint window; the
spec table's 5/30/10-minute values are the hard KV TTLs each fetcher
passes to the store on write (3600/3600/300/1800/600 seconds); and an
absent entry is a distinct case (`getCachedResponse` yields `none`, not
a stale classification). -/
theorem c2_staleness_amended :
    (∀ (now : Int) (c : CachedResponse),
        isStale now c = false ↔ now - c.timestamp ≤ 3600000) ∧
    (getCachedResponse (CacheReadOutcome.ok none) = none) ∧
    (∀ (b : ProductRequestBody) (k : String) (d : Json) (eh : Option String) (fn rt : Int),
        (fetchProductFromOrigin b k none (.resp 200 d eh) fn rt).2.map CacheWrite.ttlSeconds
          = some (hardTTLSeconds Endpoint.product)) ∧
    (∀ (b : CartRequestBody) (k : String) (d : Json) (eh : Option String) (fn rt : Int),
        (fetchCartFromOrigin b k none (.resp 200 d eh) fn rt).2.map CacheWrite.ttlSeconds
          = some (hardTTLSeconds Endpoint.cart)) ∧
    (∀ (b : StorefrontRequestBody) (k : String) (d : Json) (eh : Option String) (fn rt : Int),
        b.actionType = none → k ≠ "" →
        (fetchStorefrontFromOrigin b (some k) none (.resp 200 d eh) fn rt).2.map
            CacheWrite.ttlSeconds
          = some (hardTTLSeconds Endpoint.storefront)) ∧
    (∀ (b : UpsellRequestBody) (k : String) (d : Json) (eh : Option String) (fn rt : Int),
        (fetchUpsellFromOrigin b k none (.resp 200 d eh) fn rt).2.map CacheWrite.ttlSeconds
          = some (hardTTLSeconds Endpoint.upsell)) ∧
    (∀ (sh ph k : String) (d : Json) (eh : Option String) (fn rt : Int),
        (fetchRecommendationsFromOrigin sh ph k none (.resp 200 d eh) fn rt).2.map
            CacheWrite.ttlSeconds
          = some (hardTTLSeconds Endpoint.handle)) := by
  refine ⟨?_, rfl, fun _ _ _ _ _ _ => rfl, fun _ _ _ _ _ _ => rfl, ?_,
    fun _ _ _ _ _ _ => rfl, fun _ _ _ _ _ _ _ => rfl⟩
  · intro now c
    rw [isStale, decide_eq_false_iff_not]
    exact not_lt
  · intro b k d eh fn rt haction hk
    have h1 : truthyOptStr (some k) = true := by
      simp [truthyOptStr, hk]
    have h2 : truthyOptStr b.actionType = false := by
      rw [haction]; rfl
    simp [fetchStorefrontFromOrigin, h1, h2, hardTTLSeconds, respOk]

/-- Witness for the amended C2 at concrete inputs. -/
theorem c2_staleness_amended_witness :
    (isStale 600000 exEntry = false ↔ (600000 : Int) - exEntry.timestamp ≤ 3600000) ∧
    (fetchStorefrontFromOrigin exSFBodyA (some "sk") none (.resp 200 Json.null none) 0 0).2.map
        CacheWrite.ttlSeconds = some (hardTTLSeconds Endpoint.storefront) :=
  ⟨c2_staleness_amended.1 600000 exEntry,
   c2_staleness_amended.2.2.2.2.1 exSFBodyA "sk" Json.null none 0 0 rfl (by decide)⟩

/-- C3: for every cacheable request whose origin call fails (non-2xx
origin response, thrown network error, or timeout abort), every one of
the five origin fetchers: with a stale fallback supplied, answers the
stale payload as a 200 success tagged `STALE` and schedules no cache
write; with no fallback, answers a 503 whose error message distinguishes
an origin timeout (`Origin timeout (10s)` / `(15s)`) from an
unreachable or errored origin (`Origin unavailable`). -/
theorem c3_origin_failure_degrade (outcome : OriginOutcome)
    (hfail : originFailed outcome = true) :
    (∀ (c : CachedResponse) (rt fn : Int) (b : ProductRequestBody) (k : String),
        fetchProductFromOrigin b k (some c) outcome fn rt
          = (createSuccessResponse c.data .stale rt c.etag, none)) ∧
    (∀ (c : CachedResponse) (rt fn : Int) (b : CartRequestBody) (k : String),
        fetchCartFromOrigin b k (some c) outcome fn rt
          = (createSuccessResponse c.data .stale rt c.etag, none)) ∧
    (∀ (c : CachedResponse) (rt fn : Int) (b : StorefrontRequestBody) (k : Option String),
        fetchStorefrontFromOrigin b k (some c) outcome fn rt
          = (createSuccessResponse c.data .stale rt c.etag, none)) ∧
    (∀ (c : CachedResponse) (rt fn : Int) (b : UpsellRequestBody) (k : String),
        fetchUpsellFromOrigin b k (some c) outcome fn rt
          = (createSuccessResponse c.data .stale rt c.etag, none)) ∧
    (∀ (c : CachedResponse) (rt fn : Int) (sh ph k : String),
        fetchRecommendationsFromOrigin sh ph k (some c) outcome fn rt
          = (createSuccessResponse c.data .stale rt c.etag, none)) ∧
    (∀ (d : Json) (rt : Int) (e : Option String),
        (createSuccessResponse d .stale rt e).status = 200 ∧
          (createSuccessResponse d .stale rt e).header "X-Cache" = some "STALE" ∧
          (createSuccessResponse d .stale rt e).body = d.stringify) ∧
    (∃ msg10 msg15 : String,
        (msg10 = "Origin timeout (10s)" ↔ originAborted outcome = true) ∧
        (msg10 = "Origin timeout (10s)" ∨ msg10 = "Origin unavailable") ∧
        (msg15 = "Origin timeout (15s)" ↔ originAborted outcome = true) ∧
        (msg15 = "Origin timeout (15s)" ∨ msg15 = "Origin unavailable") ∧
        (∀ (rt fn : Int) (b : ProductRequestBody) (k : String),
            fetchProductFromOrigin b k none outcome fn rt
              = (createErrorResponse msg10 503 rt, none)) ∧
        (∀ (rt fn : Int) (b : CartRequestBody) (k : String),
            fetchCartFromOrigin b k none outcome fn rt
              = (createErrorResponse msg10 503 rt, none)) ∧
        (∀ (rt fn : Int) (b : StorefrontRequestBody) (k : Option String),
            fetchStorefrontFromOrigin b k none outcome fn rt
              = (createErrorResponse msg15 503 rt, none)) ∧
        (∀ (rt fn : Int) (b : UpsellRequestBody) (k : String),
            fetchUpsellFromOrigin b k none outcome fn rt
              = (createErrorResponse msg10 503 rt, none)) ∧
        (∀ (rt fn : Int) (sh ph k : String),
            fetchRecommendationsFromOrigin sh ph k none outcome fn rt
              = (createErrorResponse msg10 503 rt, none)) ∧
        (∀ rt : Int, (createErrorResponse msg10 503 rt).status = 503 ∧
            (createErrorResponse msg15 503 rt).status = 503)) := by
  have hstaleResp : ∀ (d : Json) (rt : Int) (e : Option String),
      (createSuccessResponse d .stale rt e).status = 200 ∧
        (createSuccessResponse d .stale rt e).header "X-Cache" = some "STALE" ∧
        (createSuccessResponse d .stale rt e).body = d.stringify :=
    fun d rt e => ⟨rfl, rfl, rfl⟩
  cases outcome with
  | resp st d eh =>
    have hok : respOk st = false := by simpa [originFailed] using hfail
    have hmsg := msgIncludesAbort_originReturned st
    refine ⟨?_, ?_, ?_, ?_, ?_, hstaleResp, ?_⟩
    · intro c rt fn b k; simp [fetchProductFromOrigin, hok]
    · intro c rt fn b k; simp [fetchCartFromOrigin, hok]
    · intro c rt fn b k; simp [fetchStorefrontFromOrigin, hok]
    · intro c rt fn b k; simp [fetchUpsellFromOrigin, hok]
    · intro c rt fn sh ph k; simp [fetchRecommendationsFromOrigin, hok]
    · refine ⟨"Origin unavailable", "Origin unavailable", ?_, Or.inr rfl, ?_, Or.inr rfl,
        ?_, ?_, ?_, ?_, ?_, fun rt => ⟨rfl, rfl⟩⟩
      · simp [originAborted]
      · simp [originAborted]
      · intro rt fn b k; simp [fetchProductFromOrigin, hok, hmsg]
      · intro rt fn b k; simp [fetchCartFromOrigin, hok, hmsg]
      · intro rt fn b k; simp [fetchStorefrontFromOrigin, hok, hmsg]
      · intro rt fn b k; simp [fetchUpsellFromOrigin, hok, hmsg]
      · intro rt fn sh ph k; simp [fetchRecommendationsFromOrigin, hok, hmsg]
  | exn m =>
    by_cases hab : msgIncludesAbort m = true
    · refine ⟨?_, ?_, ?_, ?_, ?_, hstaleResp, ?_⟩
      · intro c rt fn b k; simp [fetchProductFromOrigin]
      · intro c rt fn b k; simp [fetchCartFromOrigin]
      · intro c rt fn b k; simp [fetchStorefrontFromOrigin]
      · intro c rt fn b k; simp [fetchUpsellFromOrigin]
      · intro c rt fn sh ph k; simp [fetchRecommendationsFromOrigin]
      · refine ⟨"Origin timeout (10s)", "Origin timeout (15s)", ?_, Or.inl rfl, ?_, Or.inl rfl,
          ?_, ?_, ?_, ?_, ?_, fun rt => ⟨rfl, rfl⟩⟩
        · simp [originAborted, hab]
        · simp [originAborted, hab]
        · intro rt fn b k; simp [fetchProductFromOrigin, hab]
        · intro rt fn b k; simp [fetchCartFromOrigin, hab]
        · intro rt fn b k; simp [fetchStorefrontFromOrigin, hab]
        · intro rt fn b k; simp [fetchUpsellFromOrigin, hab]
        · intro rt fn sh ph k; simp [fetchRecommendationsFromOrigin, hab]
    · have hab' : msgIncludesAbort m = false := by simpa using hab
      refine ⟨?_, ?_, ?_, ?_, ?_, hstaleResp, ?_⟩
      · intro c rt fn b k; simp [fetchProductFromOrigin]
      · intro c rt fn b k; simp [fetchCartFromOrigin]
      · intro c rt fn b k; simp [fetchStorefrontFromOrigin]
      · intro c rt fn b k; simp [fetchUpsellFromOrigin]
      · intro c rt fn sh ph k; simp [fetchRecommendationsFromOrigin]
      · refine ⟨"Origin unavailable", "Origin unavailable", ?_, Or.inr rfl, ?_, Or.inr rfl,
          ?_, ?_, ?_, ?_, ?_, fun rt => ⟨rfl, rfl⟩⟩
        · simp [originAborted, hab']
        · simp [originAborted, hab']
        · intro rt fn b k; simp [fetchProductFromOrigin, hab']
        · intro rt fn b k; simp [fetchCartFromOrigin, hab']
        · intro rt fn b k; simp [fetchStorefrontFromOrigin, hab']
        · intro rt fn b k; simp [fetchUpsellFromOrigin, hab']
        · intro rt fn sh ph k; simp [fetchRecommendationsFromOrigin, hab']

/-- Witness for C3: a timeout abort with a stale entry at hand degrades
to the stale 200, and without one yields the timeout 503. -/
theorem c3_origin_failure_degrade_witness :
    originFailed (OriginOutcome.exn "The operation was aborted") = true ∧
    fetchProductFromOrigin exBodyA "key" (some exEntry)
        (OriginOutcome.exn "The operation was aborted") 0 7
      = (createSuccessResponse exEntry.data .stale 7 exEntry.etag, none) :=
  ⟨rfl,
   (c3_origin_failure_degrade (OriginOutcome.exn "The operation was aborted") rfl).1
     exEntry 7 0 exBodyA "key"⟩

/-- C4 counterexample: a storefront request whose body has `actionType`
set — to the empty string, which is present in the body yet falsy in
JS — does produce a cache read and an in-flight registration, because
the handler's bypass test is JS truthiness (`!body.actionType`), not
presence. -/
theorem c4_action_bypass_counterexample :
    exSFBodyEmptyAction.actionType = some "" ∧
    (handleStorefrontRequest "POST" (some exSFBodyEmptyAction) (CacheReadOutcome.ok none) 0 none
        (OriginOutcome.resp 200 Json.null none) 0 0).2.cacheReadAttempted = true ∧
    (handleStorefrontRequest "POST" (some exSFBodyEmptyAction) (CacheReadOutcome.ok none) 0 none
        (OriginOutcome.resp 200 Json.null none) 0 0).2.registeredKey.isSome = true :=
  ⟨rfl, rfl, rfl⟩

/-- C4 amended: a storefront request whose `actionType` is set to a
non-empty (JS-truthy) string performs no cache read, registers nothing
in the in-flight map, joins nothing, schedules no cache write — the
cache state is unchanged — and on a successful origin response the
success response is tagged `BYPASS`. -/
theorem c4_action_bypass_amended (body : StorefrontRequestBody)
    (readOutcome : CacheReadOutcome) (now : Int) (inflightExisting : Option Resp)
    (outcome : OriginOutcome) (fn rt : Int)
    (htr : truthyOptStr body.actionType = true) :
    (handleStorefrontRequest "POST" (some body) readOutcome now inflightExisting outcome
        fn rt).2.cacheReadAttempted = false ∧
    (handleStorefrontRequest "POST" (some body) readOutcome now inflightExisting outcome
        fn rt).2.coalescerJoined = false ∧
    (handleStorefrontRequest "POST" (some body) readOutcome now inflightExisting outcome
        fn rt).2.registeredKey = none ∧
    (handleStorefrontRequest "POST" (some body) readOutcome now inflightExisting outcome
        fn rt).2.cacheWrite = none ∧
    (∀ (st : Nat) (d : Json) (eh : Option String),
        outcome = OriginOutcome.resp st d eh → respOk st = true →
        (handleStorefrontRequest "POST" (some body) readOutcome now inflightExisting outcome
            fn rt).1.header "X-Cache" = some "BYPASS") := by
  have hbr : handleStorefrontRequest "POST" (some body) readOutcome now inflightExisting
        outcome fn rt
      = ((fetchStorefrontFromOrigin body none none outcome fn rt).1,
         { noEffects with originCalled := true,
                          cacheWrite := (fetchStorefrontFromOrigin body none none outcome
                            fn rt).2 }) := by
    simp [handleStorefrontRequest, htr]
  have hw : (fetchStorefrontFromOrigin body none none outcome fn rt).2 = none := by
    cases outcome with
    | resp st d eh =>
      by_cases hok : respOk st = true
      · simp [fetchStorefrontFromOrigin, hok, truthyOptStr]
      · have hok' : respOk st = false := by simpa using hok
        simp [fetchStorefrontFromOrigin, hok']
    | exn m => simp [fetchStorefrontFromOrigin]
  rw [hbr]
  refine ⟨rfl, rfl, rfl, hw, ?_⟩
  intro st d eh ho hok
  subst ho
  have h1 : fetchStorefrontFromOrigin body none none (OriginOutcome.resp st d eh) fn rt
      = (createSuccessResponse d CacheTag.bypass rt
          (some (jsOrStr eh (generateEtag d))), none) := by
    simp [fetchStorefrontFromOrigin, hok, truthyOptStr]
  rw [h1]
  rfl

/-- Witness for the amended C4 at a concrete `addFreeGift` action. -/
theorem c4_action_bypass_amended_witness :
    truthyOptStr exSFBodyAction.actionType = true ∧
    (handleStorefrontRequest "POST" (some exSFBodyAction) (CacheReadOutcome.ok none) 0 none
        (OriginOutcome.resp 200 Json.null none) 0 0).2.cacheWrite = none ∧
    (handleStorefrontRequest "POST" (some exSFBodyAction) (CacheReadOutcome.ok none) 0 none
        (OriginOutcome.resp 200 Json.null none) 0 0).1.header "X-Cache" = some "BYPASS" :=
  ⟨rfl,
   (c4_action_bypass_amended exSFBodyAction (CacheReadOutcome.ok none) 0 none
      (OriginOutcome.resp 200 Json.null none) 0 0 rfl).2.2.2.1,
   (c4_action_bypass_amended exSFBodyAction (CacheReadOutcome.ok none) 0 none
      (OriginOutcome.resp 200 Json.null none) 0 0 rfl).2.2.2.2 200 Json.null none rfl rfl⟩

/-- C5: for all valid request payloads that differ only in the
submission order of an unordered collection — the `excludeProductIds`
list of a product request, the `products` list of a cart request — the
cache key generators produce the same key, because both lists are
sorted before serialization. -/
theorem c5_key_order_insensitive :
    (∀ A B : ProductRequestBody,
        A.shop = B.shop → A.productId = B.productId → A.productHandle = B.productHandle →
        A.type = B.type → A.layout = B.layout → A.limit = B.limit →
        A.cartToken = B.cartToken → optPerm A.excludeProductIds B.excludeProductIds →
        generateProductCacheKey A = generateProductCacheKey B) ∧
    (∀ A B : CartRequestBody,
        A.shop = B.shop → A.type = B.type → A.layout = B.layout → A.limit = B.limit →
        A.cartToken = B.cartToken → optPerm A.products B.products →
        generateCartCacheKey A = generateCartCacheKey B) := by
  constructor
  · intro A B h1 h2 h3 h4 h5 h6 _ hperm
    have hkd : productKeyData A = productKeyData B := by
      unfold productKeyData
      rw [h1, h2, h3, h4, h5, h6]
      cases hA : A.excludeProductIds with
      | none =>
        cases hB : B.excludeProductIds with
        | none => rfl
        | some lB => rw [hA, hB] at hperm; exact absurd hperm id
      | some lA =>
        cases hB : B.excludeProductIds with
        | none => rw [hA, hB] at hperm; exact absurd hperm id
        | some lB =>
          rw [hA, hB] at hperm
          have hs : jsSortStrings lA = jsSortStrings lB := jsSortStrings_perm_eq hperm
          simp only [Option.map_some']
          rw [hs]
    unfold generateProductCacheKey
    rw [hkd]
  · intro A B h1 h2 h3 h4 _ hperm
    have hkd : cartKeyData A = cartKeyData B := by
      unfold cartKeyData
      rw [h1, h2, h3, h4]
      cases hA : A.products with
      | none =>
        cases hB : B.products with
        | none => rfl
        | some lB => rw [hA, hB] at hperm; exact absurd hperm id
      | some lA =>
        cases hB : B.products with
        | none => rw [hA, hB] at hperm; exact absurd hperm id
        | some lB =>
          rw [hA, hB] at hperm
          have hs : (jsSortNumsDefault lA).map toString = (jsSortNumsDefault lB).map toString := by
            rw [map_toString_jsSortNums, map_toString_jsSortNums,
              jsSortStrings_perm_eq (hperm.map toString)]
          simp only [Option.map_some']
          rw [hs]
    unfold generateCartCacheKey
    rw [hkd]

/-- Witness for C5 at the repository test fixture (`3,2,1` vs `1,2,3`)
and a number-list cart pair. -/
theorem c5_key_order_insensitive_witness :
    optPerm exBodyA.excludeProductIds exBodyRe.excludeProductIds ∧
    generateProductCacheKey exBodyA = generateProductCacheKey exBodyRe ∧
    optPerm exCartA.products exCartB.products ∧
    generateCartCacheKey exCartA = generateCartCacheKey exCartB :=
  ⟨by decide,
   c5_key_order_insensitive.1 exBodyA exBodyRe rfl rfl rfl rfl rfl rfl rfl (by decide),
   by decide,
   c5_key_order_insensitive.2 exCartA exCartB rfl rfl rfl rfl rfl (by decide)⟩

/-- C6 counterexample: an error response produced by the dispatcher (a
wrong-method 405 from the product handler) carries no cache-status
header at all, and the bare 404 for unmatched paths carries no headers,
so not every response carries a cache-status header. -/
theorem c6_headers_counterexample :
    (handleProductRecommendation "POST" none (CacheReadOutcome.ok none) 0 none
        (OriginOutcome.exn "x") 0 5).1.header "X-Cache" = none ∧
    (handleProductRecommendation "POST" none (CacheReadOutcome.ok none) 0 none
        (OriginOutcome.exn "x") 0 5).1
      = createErrorResponse "Method not allowed" 405 5 ∧
    notFoundResponse.header "X-Cache" = none ∧
    notFoundResponse.header "Access-Control-Allow-Origin" = none :=
  ⟨rfl, rfl, rfl, rfl⟩

/-- C6 amended: every success response carries an `X-Cache` header whose
value is one of `HIT`/`MISS`/`STALE`/`BYPASS`, a response-time header
and permissive CORS headers; error responses built by
`createErrorResponse` carry the response-time and CORS headers but no
cache-status header; the bare `Not found` response carries no headers. -/
theorem c6_headers_amended :
    (∀ (d : Json) (tag : CacheTag) (rt : Int) (e : Option String),
        (createSuccessResponse d tag rt e).header "X-Cache" = some tag.str ∧
        (tag.str = "HIT" ∨ tag.str = "MISS" ∨ tag.str = "STALE" ∨ tag.str = "BYPASS") ∧
        (createSuccessResponse d tag rt e).header "X-Response-Time"
          = some (toString rt ++ "ms") ∧
        (createSuccessResponse d tag rt e).header "Access-Control-Allow-Origin" = some "*" ∧
        (createSuccessResponse d tag rt e).header "Access-Control-Allow-Methods"
          = some "GET, POST, OPTIONS") ∧
    (∀ (msg : String) (st : Nat) (rt : Int),
        (createErrorResponse msg st rt).header "X-Cache" = none ∧
        (createErrorResponse msg st rt).header "X-Response-Time"
          = some (toString rt ++ "ms") ∧
        (createErrorResponse msg st rt).header "Access-Control-Allow-Origin" = some "*" ∧
        (createErrorResponse msg st rt).header "Access-Control-Allow-Methods"
          = some "GET, POST, OPTIONS") ∧
    notFoundResponse.headers = [] := by
  refine ⟨?_, ?_, rfl⟩
  · intro d tag rt e
    refine ⟨rfl, ?_, rfl, rfl, rfl⟩
    cases tag <;> simp [CacheTag.str]
  · intro msg st rt
    exact ⟨rfl, rfl, rfl, rfl⟩

/-- C7: a failure of the cache store read makes the request behave
exactly as if no cache entry existed — `getCachedResponse` absorbs the
failure into `none`, and the product and storefront handlers produce
identical responses and identical effects for a failed read and for an
absent entry, whatever the rest of the request. -/
theorem c7_read_failure_is_miss :
    (∀ (method : String) (pb : Option ProductRequestBody) (now : Int)
        (ifl : Option Resp) (o : OriginOutcome) (fn rt : Int),
        handleProductRecommendation method pb CacheReadOutcome.err now ifl o fn rt
          = handleProductRecommendation method pb (CacheReadOutcome.ok none) now ifl o fn rt) ∧
    (∀ (method : String) (pb : Option StorefrontRequestBody) (now : Int)
        (ifl : Option Resp) (o : OriginOutcome) (fn rt : Int),
        handleStorefrontRequest method pb CacheReadOutcome.err now ifl o fn rt
          = handleStorefrontRequest method pb (CacheReadOutcome.ok none) now ifl o fn rt) ∧
    getCachedResponse CacheReadOutcome.err = none :=
  ⟨fun _ _ _ _ _ _ _ => rfl, fun _ _ _ _ _ _ _ => rfl, rfl⟩

/-- C8: for a valid product request whose cache entry is within the
1-hour window, the handler answers 200 with the cached payload as body
and `X-Cache: HIT`, invokes no origin fetcher and registers nothing. -/
theorem c8_fresh_hit (body : ProductRequestBody) (c : CachedResponse) (now : Int)
    (ifl : Option Resp) (o : OriginOutcome) (fn rt : Int)
    (hvalid : body.validB = true) (hfresh : now - c.timestamp ≤ 3600000) :
    (handleProductRecommendation "GET" (some body) (CacheReadOutcome.ok (some c)) now ifl o
        fn rt).1 = createSuccessResponse c.data CacheTag.hit rt c.etag ∧
    (handleProductRecommendation "GET" (some body) (CacheReadOutcome.ok (some c)) now ifl o
        fn rt).1.status = 200 ∧
    (handleProductRecommendation "GET" (some body) (CacheReadOutcome.ok (some c)) now ifl o
        fn rt).1.header "X-Cache" = some "HIT" ∧
    (handleProductRecommendation "GET" (some body) (CacheReadOutcome.ok (some c)) now ifl o
        fn rt).1.body = c.data.stringify ∧
    (handleProductRecommendation "GET" (some body) (CacheReadOutcome.ok (some c)) now ifl o
        fn rt).2.originCalled = false ∧
    (handleProductRecommendation "GET" (some body) (CacheReadOutcome.ok (some c)) now ifl o
        fn rt).2.registeredKey = none := by
  have hc : isStale now c = false := by
    rw [isStale, decide_eq_false_iff_not]
    exact not_lt.mpr hfresh
  have hh : handleProductRecommendation "GET" (some body) (CacheReadOutcome.ok (some c)) now
        ifl o fn rt
      = (createSuccessResponse c.data CacheTag.hit rt c.etag,
         { noEffects with cacheReadAttempted := true }) := by
    simp [handleProductRecommendation, getCachedResponse, hc]
  rw [hh]
  exact ⟨rfl, rfl, rfl, rfl, rfl, rfl⟩

/-- Witness for C8 at the repository's test fixture and a 1-second-old
entry. -/
theorem c8_fresh_hit_witness :
    exBodyA.validB = true ∧ (1000 : Int) - exEntry.timestamp ≤ 3600000 ∧
    (handleProductRecommendation "GET" (some exBodyA) (CacheReadOutcome.ok (some exEntry)) 1000
        none (OriginOutcome.exn "origin down") 0 3).1.header "X-Cache" = some "HIT" ∧
    (handleProductRecommendation "GET" (some exBodyA) (CacheReadOutcome.ok (some exEntry)) 1000
        none (OriginOutcome.exn "origin down") 0 3).2.originCalled = false :=
  ⟨by decide, by decide,
   (c8_fresh_hit exBodyA exEntry 1000 none (OriginOutcome.exn "origin down") 0 3
      (by decide) (by decide)).2.2.1,
   (c8_fresh_hit exBodyA exEntry 1000 none (OriginOutcome.exn "origin down") 0 3
      (by decide) (by decide)).2.2.2.2.1⟩

/-- C9: the product cache key ignores `cartToken` — two product requests
identical except in `cartToken` hash to the same key — while a truthy
`cartToken` is still forwarded to the origin in the query that the
origin fetcher builds on a miss. -/
theorem c9_cartToken_invariance :
    (∀ A B : ProductRequestBody,
        A.shop = B.shop → A.productId = B.productId → A.productHandle = B.productHandle →
        A.type = B.type → A.layout = B.layout → A.limit = B.limit →
        A.excludeProductIds = B.excludeProductIds →
        generateProductCacheKey A = generateProductCacheKey B) ∧
    (∀ (b : ProductRequestBody) (t : String), b.cartToken = some t → t ≠ "" →
        ("cartToken", t) ∈ buildProductOriginQuery b) := by
  constructor
  · intro A B h1 h2 h3 h4 h5 h6 h7
    unfold generateProductCacheKey productKeyData
    rw [h1, h2, h3, h4, h5, h6, h7]
  · intro b t ht hne
    unfold buildProductOriginQuery appendIfTruthy
    have hb : (t == "") = false := by simp [hne]
    rw [ht]
    simp [hb]

/-- Witness for C9: two fixture requests differing only in `cartToken`
share a key, and the token is in the forwarded query. -/
theorem c9_cartToken_invariance_witness :
    exBodyA.cartToken ≠ exBodyB.cartToken ∧
    generateProductCacheKey exBodyA = generateProductCacheKey exBodyB ∧
    ("cartToken", "tok-b") ∈ buildProductOriginQuery exBodyB :=
  ⟨by decide,
   c9_cartToken_invariance.1 exBodyA exBodyB rfl rfl rfl rfl rfl rfl rfl,
   c9_cartToken_invariance.2 exBodyB "tok-b" rfl (by decide)⟩

/-- C10: the storefront cache key depends only on the shop and the
cart's projection onto token, total price, item count and the
`(variant_id, quantity, properties)` items sorted by `variant_id`; any
two requests agreeing on that projection share a key, whatever their
`actionType`-adjacent fields (`variantId`, `attribute`) or other cart
fields. -/
theorem c10_storefront_key_projection (A B : StorefrontRequestBody)
    (h1 : A.shop = B.shop) (h2 : A.cart.token = B.cart.token)
    (h3 : A.cart.total_price = B.cart.total_price)
    (h4 : A.cart.item_count = B.cart.item_count)
    (h5 : A.cart.items.map sfSortedKeyItems = B.cart.items.map sfSortedKeyItems) :
    generateStorefrontCacheKey A = generateStorefrontCacheKey B := by
  unfold generateStorefrontCacheKey storefrontKeyData
  rw [h1, h2, h3, h4]
  have hA : A.cart.items.map
        (fun l => jfield "items" (jarrOf ((sfSortedKeyItems l).map SFKeyItem.render)))
      = (A.cart.items.map sfSortedKeyItems).map
          (fun sl => jfield "items" (jarrOf (sl.map SFKeyItem.render))) := by
    cases A.cart.items <;> rfl
  have hB : B.cart.items.map
        (fun l => jfield "items" (jarrOf ((sfSortedKeyItems l).map SFKeyItem.render)))
      = (B.cart.items.map sfSortedKeyItems).map
          (fun sl => jfield "items" (jarrOf (sl.map SFKeyItem.render))) := by
    cases B.cart.items <;> rfl
  rw [hA, hB, h5]

/-- Witness for C10: two carts with the same projection but different
item order, currencies, per-item extra fields, `variantId` and
`attribute` share a key. -/
theorem c10_storefront_key_projection_witness :
    exSFBodyA.cart.items.map sfSortedKeyItems = exSFBodyB.cart.items.map sfSortedKeyItems ∧
    exSFBodyA.variantId ≠ exSFBodyB.variantId ∧
    exSFBodyA.cart.currency ≠ exSFBodyB.cart.currency ∧
    generateStorefrontCacheKey exSFBodyA = generateStorefrontCacheKey exSFBodyB :=
  ⟨rfl, by decide, by decide,
   c10_storefront_key_projection exSFBodyA exSFBodyB rfl rfl rfl rfl rfl⟩
